import Mathlib

/-!
Verification of the AFAC2025 agent-coordination substrate.

Shallow embedding of the core data model and operations:
  * `src/agents/base/state.py`    — `AgentState`
  * `src/agents/base/message.py`  — `MessageType`, `Message`, `MessageQueue`
  * `src/agents/base/protocol.py` — `A2AProtocol` dispatch
  * `src/agents/base/agent.py`    — `BaseAgent` handlers and state machine
  * `src/agents/research/agent.py`— `ResearchAgent` overrides
  * `src/agents/research/collectors/mcp/market_tools.py` — market validation
  * `src/agents/research/collectors/financial.py` — financial collector

Python exceptions are modelled with `Except String`; dynamic (`Any`)
payloads with the `Val` type; the logger with a `List String` trace
carried in the agent record.  Machine behaviour that the source never
exercises (uuid `id`, `timestamp`) is omitted from `Message`: no
operation of the source reads those fields.
-/

namespace AFAC

/-- `AgentState` enum from `src/agents/base/state.py`. -/
inductive AgentState where
  | idle
  | running
  | error
  | completed
  deriving DecidableEq, Repr

/-- The `.value` string of each `AgentState` member. -/
def AgentState.value : AgentState → String
  | .idle => "idle"
  | .running => "running"
  | .error => "error"
  | .completed => "completed"

/-- `MessageType` enum from `src/agents/base/message.py`. -/
inductive MessageType where
  | task
  | request
  | result
  | error
  | command
  | status
  | response
  deriving DecidableEq, Repr

/-- Dynamic Python payloads (`Any`): the shapes the handlers in the
source actually inspect — `None`, strings and string-keyed dicts. -/
inductive Val where
  | none
  | str (s : String)
  | dict (entries : List (String × Val))

mutual

/-- Python `repr` of a `Val`, as used when a dict is interpolated
into an f-string. -/
def Val.pyRepr : Val → String
  | .none => "None"
  | .str s => "\x27" ++ s ++ "\x27"
  | .dict es => "\x7b" ++ Val.reprEntries es ++ "\x7d"

/-- `repr` of the comma-separated entries of a Python dict. -/
def Val.reprEntries : List (String × Val) → String
  | [] => ""
  | [(k, v)] => "\x27" ++ k ++ "\x27: " ++ Val.pyRepr v
  | (k, v) :: rest =>
      "\x27" ++ k ++ "\x27: " ++ Val.pyRepr v ++ ", " ++ Val.reprEntries rest

end

/-- Python `str` of a `Val` (f-string interpolation). -/
def Val.pyStr : Val → String
  | .none => "None"
  | .str s => s
  | .dict es => Val.pyRepr (.dict es)

/-- Python type name of a `Val`, as it appears in an `AttributeError`. -/
def Val.typeName : Val → String
  | .none => "NoneType"
  | .str _ => "str"
  | .dict _ => "dict"

/-- `message.content.get(key)` in Python: on a dict returns the value
(or `None` when the key is absent); on any other payload raises
`AttributeError`. -/
def Val.dictGet (v : Val) (key : String) : Except String Val :=
  match v with
  | .dict es =>
      match es.lookup key with
      | some w => .ok w
      | Option.none => .ok .none
  | other =>
      .error ("\x27" ++ other.typeName ++ "\x27 object has no attribute \x27get\x27")

/-- `message.content[key]` in Python: raises `KeyError` (whose `str` is
the quoted key) when the key is absent or the payload is not a dict. -/
def Val.subscript (v : Val) (key : String) : Except String Val :=
  match v with
  | .dict es =>
      match es.lookup key with
      | some w => .ok w
      | Option.none => .error ("\x27" ++ key ++ "\x27")
  | _ => .error ("\x27" ++ v.typeName ++ "\x27 object is not subscriptable")

/-- `Message` dataclass from `src/agents/base/message.py` (the uuid
`id` and `timestamp` fields are never read by any operation of the
source and are omitted). -/
structure Message where
  sender : String
  content : Val
  type : MessageType
  receiver : String := ""

/-- `MessageQueue.receive(agent_id)` from `src/agents/base/message.py`:
scan the list from the front and remove-and-return the first message
whose `sender` equals `agent_id`; `(none, unchanged)` when there is no
match.  (Python's `list.remove(message)` removes the first element
*equal* to the found one; an earlier equal element would have the same
`sender` and so would have been found first, hence removing at the scan
position is the same operation.) -/
def receiveQ : List Message → String → Option Message × List Message
  | [], _ => (Option.none, [])
  | m :: rest, agentId =>
      if m.sender = agentId then
        (some m, rest)
      else
        let r := receiveQ rest agentId
        (r.1, m :: r.2)

/-- `MessageQueue.peek_receive(agent_id)`: first match, not removed. -/
def peekReceiveQ (msgs : List Message) (agentId : String) : Option Message :=
  msgs.find? (fun m => m.sender == agentId)

/-- `MessageQueue.clear_receive(agent_id)`: drop every message whose
`sender` is `agentId`. -/
def clearReceiveQ (msgs : List Message) (agentId : String) : List Message :=
  msgs.filter (fun m => m.sender != agentId)

/-- State of a `BaseAgent` (`src/agents/base/agent.py`): its name, its
`AgentState`, the message queue of its own `A2AProtocol` instance, and
the accumulated logger output. -/
structure Agent where
  name : String
  state : AgentState
  queue : List Message
  log : List String := []

/-- A state-handler registry of an `A2AProtocol`
(`src/agents/base/protocol.py`): at most one callback per state
(last registration wins).  The default handlers registered by
`BaseAgent` only log, so a handler transforms the log trace. -/
def StateReg : Type := AgentState → Option (AgentState → AgentState → List String → List String)

/-- `A2AProtocol.handle_state_change(old, new)`: invoke the handler
registered for the *new* state, if any, with `(old, new)`. -/
def handleStateChange (reg : StateReg) (old new : AgentState) (log : List String) : List String :=
  match reg new with
  | some h => h old new log
  | Option.none => log

/-- The default state handlers `BaseAgent._setup_protocol_handlers`
registers: one log-only handler per state. -/
def baseStateHandlers : StateReg := fun s =>
  some (fun _ _ log =>
    match s with
    | .idle => log ++ ["Agent is now idle"]
    | .running => log ++ ["Agent is now running"]
    | .error => log ++ ["Agent encountered an error"]
    | .completed => log ++ ["Agent has completed its task"])

/-- `BaseAgent.update_state(new_state)`: remember the old state, set
`state`, run `handle_state_change(old, new)`, log the transition. -/
def updateState (reg : StateReg) (a : Agent) (newState : AgentState) : Agent :=
  { a with
    state := newState
    log := handleStateChange reg a.state newState a.log ++
      ["State changed from " ++ a.state.value ++ " to " ++ newState.value] }

/-- `BaseAgent.log_error(error)`: log at error severity, then force
`update_state(ERROR)`. -/
def logError (reg : StateReg) (a : Agent) (err : String) : Agent :=
  updateState reg { a with log := a.log ++ [err] } .error

/-- `BaseAgent.validate(data)`: return `_validate_impl(data)`; when the
implementation raises, `log_error` and return `False`. -/
def validate (reg : StateReg) (impl : Val → Except String Bool) (a : Agent) (d : Val) :
    Bool × Agent :=
  match impl d with
  | .ok b => (b, a)
  | .error e => (false, logError reg a ("Validation error: " ++ e))

/-- `BaseAgent.send_message(receiver, message_type, content)`: build a
`Message` with `sender = self.name` and push it onto the queue of the
agent's *own* protocol. -/
def sendMessage (a : Agent) (receiver : String) (t : MessageType) (content : Val) : Agent :=
  { a with queue := a.queue ++ [{ sender := a.name, content := content, type := t, receiver := receiver }] }

/-- `BaseAgent.receive_message()`: `receive(self.name)` on the agent's
own queue. -/
def receiveMessage (a : Agent) : Option Message × Agent :=
  let r := receiveQ a.queue a.name
  (r.1, { a with queue := r.2 })

/-- `BaseAgent._handle_task_message(message)`: log receipt, call
`execute(message.content)`; reply `RESULT` with the return value, or
`ERROR` with the stringified exception.  `execute` raising is modelled
by `Except.error`. -/
def handleTaskMessage (execute : Val → Except String Val) (a : Agent) (m : Message) : Agent :=
  let a :=
    { a with log := a.log ++ ["Received task from " ++ m.sender ++ ": " ++ m.content.pyStr] }
  match execute m.content with
  | .ok r => sendMessage a m.sender .result r
  | .error e => sendMessage a m.sender .error (.str e)

/-- `A2AProtocol.handle_message(message)` with the handlers that
`BaseAgent._setup_protocol_handlers` registers: `TASK` dispatches to
`_handle_task_message`; `RESULT`/`ERROR`/`STATUS`/`REQUEST`/`RESPONSE`
have log-only default handlers; `COMMAND` has no registered handler,
so the dispatch silently no-ops. -/
def baseHandleMessage (execute : Val → Except String Val) (a : Agent) (m : Message) : Agent :=
  match m.type with
  | .task => handleTaskMessage execute a m
  | .result =>
      { a with log := a.log ++ ["Received result from " ++ m.sender ++ ": " ++ m.content.pyStr] }
  | .error =>
      { a with log := a.log ++ ["Received error from " ++ m.sender ++ ": " ++ m.content.pyStr] }
  | .status =>
      { a with log := a.log ++ ["Received status from " ++ m.sender ++ ": " ++ m.content.pyStr] }
  | .request =>
      { a with log := a.log ++ ["Received request from " ++ m.sender ++ ": " ++ m.content.pyStr] }
  | .response =>
      { a with log := a.log ++ ["Received response from " ++ m.sender ++ ": " ++ m.content.pyStr] }
  | .command => a

/-- `BaseAgent.cleanup()`: log, then `update_state(IDLE)`. -/
def cleanup (reg : StateReg) (a : Agent) : Agent :=
  updateState reg { a with log := a.log ++ ["Cleaning up resources"] } .idle

/-- `ResearchAgent.cleanup()` (`src/agents/research/agent.py`): log,
assign `state = IDLE` directly, run each collector's log-only
`cleanup()` (market, financial, news), then `super().cleanup()`. -/
def researchCleanup (reg : StateReg) (a : Agent) : Agent :=
  cleanup reg
    { a with
      state := .idle
      log := a.log ++ ["清理研究代理资源",
        "Cleaning up resources", "Cleaning up resources", "Cleaning up resources"] }

/-- `ResearchAgent._handle_request_message(message)`: dispatch on
`message.content.get("action")` — `get_data` runs
`execute(message.content["task"])` and replies `RESULT`; `get_status`
replies `RESULT {"state": state.value}`; any other action raises
`ValueError("Unsupported request action: ...")`; every exception in the
body is caught and turned into an `ERROR` reply to the sender. -/
def researchHandleRequest (execute : Val → Except String Val)
    (a : Agent) (m : Message) : Agent :=
  let a :=
    { a with log := a.log ++ ["Received request from " ++ m.sender ++ ": " ++ m.content.pyStr] }
  match m.content.dictGet "action" with
  | .error e => sendMessage a m.sender .error (.str e)
  | .ok act =>
      match act with
      | .str "get_data" =>
          match m.content.subscript "task" with
          | .error e => sendMessage a m.sender .error (.str e)
          | .ok task =>
              match execute task with
              | .ok r => sendMessage a m.sender .result r
              | .error e => sendMessage a m.sender .error (.str e)
      | .str "get_status" =>
          sendMessage a m.sender .result (.dict [("state", .str a.state.value)])
      | other =>
          sendMessage a m.sender .error
            (.str ("Unsupported request action: " ++ other.pyStr))

/-- `ResearchAgent._handle_command_message(message)`: `cleanup` and
`reset` reply `RESULT {"status": "success"}`; other actions raise
`ValueError("Unsupported command action: ...")`, caught and converted
to an `ERROR` reply. -/
def researchHandleCommand (reg : StateReg) (a : Agent) (m : Message) : Agent :=
  let a :=
    { a with log := a.log ++ ["Received command from " ++ m.sender ++ ": " ++ m.content.pyStr] }
  match m.content.dictGet "action" with
  | .error e => sendMessage a m.sender .error (.str e)
  | .ok act =>
      match act with
      | .str "cleanup" =>
          sendMessage (researchCleanup reg a) m.sender .result
            (.dict [("status", .str "success")])
      | .str "reset" =>
          sendMessage (updateState reg a .idle) m.sender .result
            (.dict [("status", .str "success")])
      | other =>
          sendMessage a m.sender .error
            (.str ("Unsupported command action: " ++ other.pyStr))

/-- `ResearchAgent._handle_error_message(message)`: log the error,
`update_state(ERROR)`, then `log_error` (which updates state to `ERROR`
again). -/
def researchHandleError (reg : StateReg) (a : Agent) (m : Message) : Agent :=
  let a :=
    { a with log := a.log ++ ["Received error from " ++ m.sender ++ ": " ++ m.content.pyStr] }
  logError reg (updateState reg a .error)
    ("Error from " ++ m.sender ++ ": " ++ m.content.pyStr)

/-- `ResearchAgent.handle_message(message)`: dispatch over the
`message_handlers` dict set up in `_setup_message_handlers`
(TASK, REQUEST, COMMAND, ERROR); other types log a warning. -/
def researchHandleMessage (reg : StateReg) (execute : Val → Except String Val)
    (a : Agent) (m : Message) : Agent :=
  match m.type with
  | .task => handleTaskMessage execute a m
  | .request => researchHandleRequest execute a m
  | .command => researchHandleCommand reg a m
  | .error => researchHandleError reg a m
  | _ => { a with log := a.log ++ ["Unsupported message type"] }

/-! ## Market data validation
(`src/agents/research/collectors/mcp/market_tools.py` and
`src/agents/research/collectors/market.py`) -/

/-- A JSON number-or-null as held in the `data` sub-dict of a market
payload (the mock fetchers leave a field `null` when no value was
parsed). The numeric values involved are exact decimals, modelled as
rationals. -/
inductive JVal where
  | null
  | num (q : ℚ)
  deriving DecidableEq, Repr

/-- Python `<` on two JSON values: comparing `None` with a number
raises `TypeError`. -/
def JVal.lt : JVal → JVal → Except String Bool
  | .num a, .num b => .ok (decide (a < b))
  | _, _ => .error "TypeError: comparison not supported with NoneType"

/-- Python `>` on two JSON values. -/
def JVal.gt : JVal → JVal → Except String Bool
  | .num a, .num b => .ok (decide (a > b))
  | _, _ => .error "TypeError: comparison not supported with NoneType"

/-- A market-data payload as inspected by `validate_market_data`:
presence of the four required top-level keys, whether `data` is a dict,
and the five entries of the `data` sub-dict (`none` = key absent,
`some .null` = present but null). Field names carry a `V` suffix
because `open` is reserved in Lean. -/
structure MarketData where
  hasTarget : Bool
  hasTimeframe : Bool
  hasData : Bool
  hasSources : Bool
  dataIsDict : Bool
  openV : Option JVal
  closeV : Option JVal
  highV : Option JVal
  lowV : Option JVal
  volumeV : Option JVal
  deriving DecidableEq, Repr

/-- The `try` body of `validate_market_data`: required top-level keys,
`data` must be a dict, required `data` keys, then the price-range
comparisons in source order with Python short-circuiting; a `TypeError`
from a comparison propagates as an exception. Note the source never
inspects the *value* of `volume`, only its presence. -/
def marketChecks (d : MarketData) : Except String Bool :=
  if !(d.hasTarget && d.hasTimeframe && d.hasData && d.hasSources) then .ok false
  else if !d.dataIsDict then .ok false
  else if !(d.openV.isSome && d.closeV.isSome && d.highV.isSome
            && d.lowV.isSome && d.volumeV.isSome) then .ok false
  else
    (JVal.lt (d.highV.getD .null) (d.lowV.getD .null)).bind fun hl =>
    if hl then .ok false
    else (JVal.lt (d.openV.getD .null) (d.lowV.getD .null)).bind fun ol =>
    if ol then .ok false
    else (JVal.gt (d.openV.getD .null) (d.highV.getD .null)).bind fun oh =>
    if oh then .ok false
    else (JVal.lt (d.closeV.getD .null) (d.lowV.getD .null)).bind fun cl =>
    if cl then .ok false
    else (JVal.gt (d.closeV.getD .null) (d.highV.getD .null)).bind fun ch =>
    if ch then .ok false
    else .ok true

/-- `validate_market_data` /  `MarketDataCollector.validate`: run the
checks; any exception is caught and reported as `{"valid": false}`.
(The collector's `validate` serialises the dict to JSON and back, an
identity on these payloads, and returns the `"valid"` flag.) -/
def validateMarketData (d : MarketData) : Bool :=
  match marketChecks d with
  | .ok b => b
  | .error _ => false

/-- `MarketDataCollector.collect(target, timeframe, fields)`: try each
available source in order; the data a source fetches comes from an
external web search, so the successive fetched payloads are modelled as
an arbitrary list; the first payload that passes `validate` is
returned, and `ValueError("No available data source")` is raised when
none does. -/
def collectMarket (fetched : List MarketData) : Except String MarketData :=
  match fetched.find? (fun d => validateMarketData d) with
  | some d => .ok d
  | Option.none => .error "No available data source"

/-! ## Financial data collector
(`src/agents/research/collectors/financial.py`) -/

/-- A financial payload that contains the required keys (`company`,
`period`, and a `data` dict with numeric `revenue`, `profit`, `assets`,
`liabilities`, `equity`): the shape over which the balance-identity
check of `_validate_impl` is reached. -/
structure FinancialData where
  company : String
  period : String
  revenue : ℚ
  profit : ℚ
  assets : ℚ
  liabilities : ℚ
  equity : ℚ
  deriving DecidableEq, Repr

/-- `FinancialDataCollector._validate_impl` on a payload with the
required keys and numeric values (the key-presence and type checks of
the source succeed by construction of `FinancialData`): the remaining
check is `assets == liabilities + equity`, else `False`. -/
def financialValidateImpl (d : FinancialData) : Bool :=
  decide (d.assets = d.liabilities + d.equity)

/-- `FinancialDataCollector.collect(target, timeframe, fields)`: build
the mock payload, raise `ValueError("Financial data validation
failed")` unless `validate` passes (`BaseCollector.validate` returns
`_validate_impl`, which is total here). -/
def financialCollect (target : String) (timeframe : Option String) : Except String FinancialData :=
  let data : FinancialData :=
    { company := target
      period := timeframe.getD "2023Q1"
      revenue := 1000000000
      profit := 100000000
      assets := 5000000000
      liabilities := 2000000000
      equity := 3000000000 }
  if financialValidateImpl data then .ok data
  else .error "Financial data validation failed"

/-! ## Concrete sample values used by witnesses and counterexamples -/

/-- A freshly constructed agent (state `IDLE`, empty queue). -/
def sampleAgent : Agent :=
  { name := "ResearchAgent", state := .idle, queue := [], log := [] }

/-- A `REQUEST` message whose `content.action` is the unsupported
string `"bogus"`. -/
def bogusRequest : Message :=
  { sender := "Orchestrator", content := .dict [("action", .str "bogus")], type := .request }

/-- A `TASK` message with an arbitrary payload. -/
def sampleTask : Message :=
  { sender := "Orchestrator", content := .str "payload", type := .task }

/-- An `execute` that succeeds, echoing its payload. -/
def execEcho : Val → Except String Val := fun v => .ok v

/-- An `execute` that raises. -/
def execFail : Val → Except String Val := fun _ => .error "boom"

/-- A `_validate_impl` that raises on every input. -/
def implRaise : Val → Except String Bool := fun _ => .error "bad data"

/-- First message from sender `"alice"`. -/
def msgA1 : Message := { sender := "alice", content := .str "m1", type := .status }

/-- Second message from sender `"alice"`. -/
def msgA2 : Message := { sender := "alice", content := .str "m2", type := .status }

/-- A market payload whose prices satisfy the range checks but whose
volume is negative: the source's validator accepts it. -/
def badVolumeMarket : MarketData :=
  { hasTarget := true, hasTimeframe := true, hasData := true, hasSources := true
    dataIsDict := true
    openV := some (.num 100), closeV := some (.num 101)
    highV := some (.num 102), lowV := some (.num 99)
    volumeV := some (.num (-1)) }

/-- A financial payload violating `assets = liabilities + equity`. -/
def unbalancedFinancial : FinancialData :=
  { company := "X", period := "2023Q1", revenue := 1, profit := 1
    assets := 10, liabilities := 4, equity := 5 }

/-! ## Theorems -/

/-- Shared helper: `receive` returns the first message of the given
sender and removes exactly that occurrence. -/
theorem receiveQ_eq_find_erase (q : List Message) (agentId : String) :
    (receiveQ q agentId).1 = q.find? (fun m => m.sender == agentId)
    ∧ (receiveQ q agentId).2 = q.eraseP (fun m => m.sender == agentId) := by
  induction q with
  | nil => simp [receiveQ]
  | cons m rest ih =>
    by_cases h : m.sender = agentId
    · simp [receiveQ, h, List.find?, List.eraseP_cons]
    · have hb : (m.sender == agentId) = false := by simp [h]
      simp [receiveQ, h, List.find?, List.eraseP_cons, hb, ih.1, ih.2]

/-- C2: `receive(agent_id)` removes and returns the first message in
insertion order whose `sender` equals `agent_id` (expressed through
`find?`/`eraseP`), returns no message when no queued message has that
sender, and two messages from the same sender pushed as M1 then M2 are
returned by successive calls as M1, then M2, then no message. -/
theorem receive_first_match_per_sender (s : String) (m1 m2 : Message)
    (h1 : m1.sender = s) (h2 : m2.sender = s) :
    (∀ q : List Message,
        (receiveQ q s).1 = q.find? (fun m => m.sender == s)
        ∧ (receiveQ q s).2 = q.eraseP (fun m => m.sender == s))
    ∧ (∀ q : List Message, (∀ m ∈ q, m.sender ≠ s) → receiveQ q s = (Option.none, q))
    ∧ (receiveQ [m1, m2] s).1 = some m1
    ∧ (receiveQ (receiveQ [m1, m2] s).2 s).1 = some m2
    ∧ (receiveQ (receiveQ (receiveQ [m1, m2] s).2 s).2 s).1 = Option.none := by
  refine ⟨fun q => receiveQ_eq_find_erase q s, fun q hq => ?_, ?_, ?_, ?_⟩
  · have h1 := (receiveQ_eq_find_erase q s).1
    have h2 := (receiveQ_eq_find_erase q s).2
    have hf : q.find? (fun m => m.sender == s) = Option.none := by
      rw [List.find?_eq_none]
      intro m hm
      simpa using hq m hm
    have he : q.eraseP (fun m => m.sender == s) = q := by
      rw [List.eraseP_of_forall_not]
      intro m hm
      simpa using hq m hm
    have : receiveQ q s = ((receiveQ q s).1, (receiveQ q s).2) := rfl
    rw [this, h1, h2, hf, he]
  · simp [receiveQ, h1]
  · simp [receiveQ, h1, h2]
  · simp [receiveQ, h1, h2]

/-- C2 witness at concrete inputs. -/
theorem receive_first_match_per_sender_witness :
    (∀ q : List Message,
        (receiveQ q "alice").1 = q.find? (fun m => m.sender == "alice")
        ∧ (receiveQ q "alice").2 = q.eraseP (fun m => m.sender == "alice"))
    ∧ (∀ q : List Message, (∀ m ∈ q, m.sender ≠ "alice") → receiveQ q "alice" = (Option.none, q))
    ∧ (receiveQ [msgA1, msgA2] "alice").1 = some msgA1
    ∧ (receiveQ (receiveQ [msgA1, msgA2] "alice").2 "alice").1 = some msgA2
    ∧ (receiveQ (receiveQ (receiveQ [msgA1, msgA2] "alice").2 "alice").2 "alice").1
        = Option.none :=
  receive_first_match_per_sender "alice" msgA1 msgA2 rfl rfl

/-- C4: `update_state(S)` always leaves `state = S`, from any prior
state, and runs the handler registered for the new state `S` (if any)
on the pair `(old, S)`; the transition is then logged. -/
theorem update_state_sets_state_and_fires_handler (reg : StateReg) (a : Agent) (S : AgentState) :
    (updateState reg a S).state = S
    ∧ (updateState reg a S).log =
        (match reg S with
         | some h => h a.state S a.log
         | Option.none => a.log) ++
        ["State changed from " ++ a.state.value ++ " to " ++ S.value] := by
  constructor
  · rfl
  · simp only [updateState, handleStateChange]

/-- C5: `validate(data)` always returns a boolean and never raises:
the boolean `_validate_impl` returns when it returns, and `false` when
`_validate_impl` raises (totality of the embedding is the no-raise
guarantee). -/
theorem validate_never_raises (reg : StateReg) (impl : Val → Except String Bool)
    (a : Agent) (d : Val) :
    (validate reg impl a d).1 =
      (match impl d with
       | .ok b => b
       | .error _ => false) := by
  cases h : impl d <;> simp [validate, h]

/-- C6: when `_validate_impl` raises, `validate` returns `false` and,
via `log_error` / `update_state(ERROR)`, leaves the agent in the
`ERROR` state. -/
theorem validate_raise_sets_error_state (reg : StateReg) (impl : Val → Except String Bool)
    (a : Agent) (d : Val) (e : String) (h : impl d = .error e) :
    (validate reg impl a d).1 = false
    ∧ (validate reg impl a d).2.state = .error := by
  simp [validate, h, logError, updateState]

/-- C6 witness at concrete inputs. -/
theorem validate_raise_sets_error_state_witness :
    (validate baseStateHandlers implRaise sampleAgent (.str "x")).1 = false
    ∧ (validate baseStateHandlers implRaise sampleAgent (.str "x")).2.state = .error :=
  validate_raise_sets_error_state baseStateHandlers implRaise sampleAgent (.str "x")
    "bad data" rfl

/-- C7: `cleanup()` is idempotent with fixed point `IDLE`: any positive
number of successive calls, from any state, leaves `state = IDLE`; the
same holds for `ResearchAgent.cleanup`. -/
theorem cleanup_idempotent_fixed_point_idle (reg : StateReg) (a : Agent) (n : ℕ) :
    ((cleanup reg)^[n + 1] a).state = .idle
    ∧ ((researchCleanup reg)^[n + 1] a).state = .idle := by
  have hc : ∀ x : Agent, (cleanup reg x).state = .idle := fun x => rfl
  have hr : ∀ x : Agent, (researchCleanup reg x).state = .idle := fun x => rfl
  constructor
  · rw [Function.iterate_succ_apply']
    exact hc _
  · rw [Function.iterate_succ_apply']
    exact hr _

/-- C1: dispatching a `TASK` message through the protocol's
`handle_message` with the `BaseAgent` registrations invokes
`execute(m.content)` and enqueues exactly one reply — a `RESULT`
carrying `execute`'s return value on success, or an `ERROR` carrying
the stringified exception on failure — addressed back to `m.sender`;
the handler itself is a total function, so no exception escapes. -/
theorem task_message_exactly_one_reply (execute : Val → Except String Val)
    (a : Agent) (m : Message) (h : m.type = .task) :
    ∃ reply : Message,
      (baseHandleMessage execute a m).queue = a.queue ++ [reply]
      ∧ reply.sender = a.name
      ∧ reply.receiver = m.sender
      ∧ (match execute m.content with
         | .ok r => reply.type = .result ∧ reply.content = r
         | .error e => reply.type = .error ∧ reply.content = .str e) := by
  cases hx : execute m.content with
  | ok r =>
      exact ⟨{ sender := a.name, content := r, type := .result, receiver := m.sender },
        by simp [baseHandleMessage, h, handleTaskMessage, hx, sendMessage]⟩
  | error e =>
      exact ⟨{ sender := a.name, content := .str e, type := .error, receiver := m.sender },
        by simp [baseHandleMessage, h, handleTaskMessage, hx, sendMessage]⟩

/-- C1 witness at concrete inputs. -/
theorem task_message_exactly_one_reply_witness :
    ∃ reply : Message,
      (baseHandleMessage execEcho sampleAgent sampleTask).queue = sampleAgent.queue ++ [reply]
      ∧ reply.sender = sampleAgent.name
      ∧ reply.receiver = sampleTask.sender
      ∧ (match execEcho sampleTask.content with
         | .ok r => reply.type = .result ∧ reply.content = r
         | .error e => reply.type = .error ∧ reply.content = .str e) :=
  task_message_exactly_one_reply execEcho sampleAgent sampleTask rfl

/-- C3: `send_message(receiver, type, content)` enqueues, into the
agent's *own* protocol queue, a message with `sender = a.name`; on a
fresh queue, a subsequent `receive(a.name)` returns exactly that
message, while `receive(receiver)` returns no message for any
`receiver` different from `a.name` — the reply is never retrievable
under the receiver's identity on the sender's own queue. -/
theorem send_message_enqueues_to_own_queue (a : Agent) (receiver : String)
    (t : MessageType) (c : Val) (hq : a.queue = []) (hne : receiver ≠ a.name) :
    (sendMessage a receiver t c).queue
      = [{ sender := a.name, content := c, type := t, receiver := receiver }]
    ∧ (receiveQ (sendMessage a receiver t c).queue a.name).1
      = some { sender := a.name, content := c, type := t, receiver := receiver }
    ∧ (receiveQ (sendMessage a receiver t c).queue receiver).1 = Option.none := by
  have hne' : a.name ≠ receiver := fun hcontra => hne hcontra.symm
  simp [sendMessage, hq, receiveQ, hne']

/-- C3 witness at concrete inputs. -/
theorem send_message_enqueues_to_own_queue_witness :
    (sendMessage sampleAgent "Orchestrator" .result (.str "ok")).queue
      = [{ sender := sampleAgent.name, content := .str "ok", type := .result,
           receiver := "Orchestrator" }]
    ∧ (receiveQ (sendMessage sampleAgent "Orchestrator" .result (.str "ok")).queue
        sampleAgent.name).1
      = some { sender := sampleAgent.name, content := .str "ok", type := .result,
               receiver := "Orchestrator" }
    ∧ (receiveQ (sendMessage sampleAgent "Orchestrator" .result (.str "ok")).queue
        "Orchestrator").1 = Option.none :=
  send_message_enqueues_to_own_queue sampleAgent "Orchestrator" .result (.str "ok")
    rfl (by decide)

/-- C8 counterexample: the claim quantifies over *every* agent, but the
default `BaseAgent._handle_request_message` (inherited by the analysis,
writing and review agents) only logs: dispatching a `REQUEST` whose
`content.action` is `"bogus"` through the base registrations enqueues
no reply at all — a silent no-op, not an `ERROR` reply. -/
theorem base_bogus_request_silent_no_reply :
    (baseHandleMessage execEcho sampleAgent bogusRequest).queue = []
    ∧ bogusRequest.type = .request
    ∧ bogusRequest.content.dictGet "action" = .ok (.str "bogus") := by
  refine ⟨rfl, rfl, rfl⟩

/-- C8 (amended): for an agent using `ResearchAgent`'s request handler,
a `REQUEST` whose `content.action` is a string other than `get_data`
and `get_status` yields exactly one `ERROR` reply whose content is the
unsupported-action error text. -/
theorem research_bogus_request_error_reply (reg : StateReg)
    (execute : Val → Except String Val) (a : Agent) (m : Message) (s : String)
    (hty : m.type = .request)
    (hact : m.content.dictGet "action" = .ok (.str s))
    (h1 : s ≠ "get_data") (h2 : s ≠ "get_status") :
    ∃ reply : Message,
      (researchHandleMessage reg execute a m).queue = a.queue ++ [reply]
      ∧ reply.type = .error
      ∧ reply.receiver = m.sender
      ∧ reply.sender = a.name
      ∧ reply.content = .str ("Unsupported request action: " ++ s) := by
  refine ⟨{ sender := a.name,
            content := .str ("Unsupported request action: " ++ s),
            type := .error, receiver := m.sender }, ?_⟩
  simp only [researchHandleMessage, hty, researchHandleRequest, hact]
  simp [h1, h2, sendMessage, Val.pyStr]

/-- C8 (amended) witness at concrete inputs. -/
theorem research_bogus_request_error_reply_witness :
    ∃ reply : Message,
      (researchHandleMessage baseStateHandlers execEcho sampleAgent bogusRequest).queue
        = sampleAgent.queue ++ [reply]
      ∧ reply.type = .error
      ∧ reply.receiver = bogusRequest.sender
      ∧ reply.sender = sampleAgent.name
      ∧ reply.content = .str ("Unsupported request action: " ++ "bogus") :=
  research_bogus_request_error_reply baseStateHandlers execEcho sampleAgent bogusRequest
    "bogus" rfl rfl (by decide) (by decide)

/-- C9 counterexample: `validate_market_data` never inspects the value
of `volume`, so a payload with valid price ranges and `volume = -1`
passes validation — and `collect` returns it — refuting the claim that
violating `volume >= 0` makes `validate` return false. -/
theorem market_validate_accepts_negative_volume :
    validateMarketData badVolumeMarket = true
    ∧ badVolumeMarket.volumeV = some (.num (-1))
    ∧ ¬ ((0 : ℚ) ≤ -1)
    ∧ collectMarket [badVolumeMarket] = .ok badVolumeMarket := by
  refine ⟨by decide, rfl, by norm_num, ?_⟩
  have h : validateMarketData badVolumeMarket = true := by decide
  simp [collectMarket, List.find?, h]

/-- C9 (amended): every payload returned by
`MarketDataCollector.collect` has passed `validate_market_data`, and
any payload passing validation has numeric `open`/`close`/`high`/`low`
satisfying `high >= low`, `high >= open`, `high >= close`,
`low <= open`, `low <= close` (equivalently, violating any of these
price inequalities makes `validate` return false); the `volume >= 0`
bound is not checked. -/
theorem market_collect_price_bounds (fetched : List MarketData) (d : MarketData)
    (hc : collectMarket fetched = .ok d) :
    validateMarketData d = true
    ∧ ∃ o c h l : ℚ,
        d.openV = some (.num o) ∧ d.closeV = some (.num c)
        ∧ d.highV = some (.num h) ∧ d.lowV = some (.num l)
        ∧ l ≤ h ∧ o ≤ h ∧ c ≤ h ∧ l ≤ o ∧ l ≤ c := by
  have hv : validateMarketData d = true := by
    unfold collectMarket at hc
    cases hf : fetched.find? (fun x => validateMarketData x) with
    | none => rw [hf] at hc; cases hc
    | some d' =>
        rw [hf] at hc
        cases hc
        exact List.find?_some hf
  refine ⟨hv, ?_⟩
  by_cases hb1 : (d.hasTarget && d.hasTimeframe && d.hasData && d.hasSources) = true
  case neg =>
    rw [Bool.not_eq_true] at hb1
    simp [validateMarketData, marketChecks, hb1] at hv
  by_cases hb2 : d.dataIsDict = true
  case neg =>
    rw [Bool.not_eq_true] at hb2
    simp [validateMarketData, marketChecks, hb1, hb2] at hv
  by_cases hb3 : (d.openV.isSome && d.closeV.isSome && d.highV.isSome
      && d.lowV.isSome && d.volumeV.isSome) = true
  case neg =>
    rw [Bool.not_eq_true] at hb3
    simp [validateMarketData, marketChecks, hb1, hb2, hb3] at hv
  simp only [Bool.and_eq_true, Option.isSome_iff_exists] at hb3
  obtain ⟨⟨⟨⟨⟨jo, ho⟩, jc, hcv⟩, jh, hh⟩, jl, hl⟩, jv, hvv⟩ := hb3
  cases jh with
  | null => simp [validateMarketData, marketChecks, hb1, hb2, ho, hcv, hh, hl, hvv,
      JVal.lt, Except.bind] at hv
  | num h =>
  cases jl with
  | null => simp [validateMarketData, marketChecks, hb1, hb2, ho, hcv, hh, hl, hvv,
      JVal.lt, Except.bind] at hv
  | num l =>
  by_cases hhl : h < l
  case pos =>
    simp [validateMarketData, marketChecks, hb1, hb2, ho, hcv, hh, hl, hvv,
      JVal.lt, Except.bind, hhl] at hv
  cases jo with
  | null => simp [validateMarketData, marketChecks, hb1, hb2, ho, hcv, hh, hl, hvv,
      JVal.lt, JVal.gt, Except.bind, hhl] at hv
  | num o =>
  by_cases hol : o < l
  case pos =>
    simp [validateMarketData, marketChecks, hb1, hb2, ho, hcv, hh, hl, hvv,
      JVal.lt, JVal.gt, Except.bind, hhl, hol] at hv
  by_cases hoh : o > h
  case pos =>
    simp [validateMarketData, marketChecks, hb1, hb2, ho, hcv, hh, hl, hvv,
      JVal.lt, JVal.gt, Except.bind, hhl, hol, hoh] at hv
  cases jc with
  | null => simp [validateMarketData, marketChecks, hb1, hb2, ho, hcv, hh, hl, hvv,
      JVal.lt, JVal.gt, Except.bind, hhl, hol, hoh] at hv
  | num c =>
  by_cases hcl : c < l
  case pos =>
    simp [validateMarketData, marketChecks, hb1, hb2, ho, hcv, hh, hl, hvv,
      JVal.lt, JVal.gt, Except.bind, hhl, hol, hoh, hcl] at hv
  by_cases hch : c > h
  case pos =>
    simp [validateMarketData, marketChecks, hb1, hb2, ho, hcv, hh, hl, hvv,
      JVal.lt, JVal.gt, Except.bind, hhl, hol, hoh, hcl, hch] at hv
  exact ⟨o, c, h, l, ho, hcv, hh, hl,
    not_lt.mp hhl, not_lt.mp hoh, not_lt.mp hch, not_lt.mp hol, not_lt.mp hcl⟩

/-- C9 (amended) witness at concrete inputs. -/
theorem market_collect_price_bounds_witness :
    validateMarketData badVolumeMarket = true
    ∧ ∃ o c h l : ℚ,
        badVolumeMarket.openV = some (.num o) ∧ badVolumeMarket.closeV = some (.num c)
        ∧ badVolumeMarket.highV = some (.num h) ∧ badVolumeMarket.lowV = some (.num l)
        ∧ l ≤ h ∧ o ≤ h ∧ c ≤ h ∧ l ≤ o ∧ l ≤ c :=
  market_collect_price_bounds [badVolumeMarket] badVolumeMarket
    (by simp [collectMarket, List.find?, show validateMarketData badVolumeMarket = true
      by decide])

/-- C10: on payloads with the required keys and numeric fields,
`FinancialDataCollector` validation returns false whenever
`assets != liabilities + equity`, and `collect` never returns such a
payload (it raises a validation error instead). -/
theorem financial_balance_identity (d : FinancialData)
    (hne : d.assets ≠ d.liabilities + d.equity) :
    financialValidateImpl d = false
    ∧ ∀ (target : String) (tf : Option String) (d2 : FinancialData),
        financialCollect target tf = .ok d2 → d2.assets = d2.liabilities + d2.equity := by
  constructor
  · simp [financialValidateImpl, hne]
  · intro target tf d2 h
    have hb : financialValidateImpl
        ({ company := target, period := tf.getD "2023Q1",
           revenue := 1000000000, profit := 100000000,
           assets := 5000000000, liabilities := 2000000000,
           equity := 3000000000 } : FinancialData) = true := by
      simp [financialValidateImpl]
      norm_num
    simp [financialCollect, hb] at h
    rw [← h]
    norm_num

/-- C10 witness at concrete inputs. -/
theorem financial_balance_identity_witness :
    financialValidateImpl unbalancedFinancial = false
    ∧ ∀ (target : String) (tf : Option String) (d2 : FinancialData),
        financialCollect target tf = .ok d2 → d2.assets = d2.liabilities + d2.equity :=
  financial_balance_identity unbalancedFinancial (by norm_num [unbalancedFinancial])

end AFAC
